import Mathlib

/-!
Verification of the omnicanon core analytical pipeline against its design
specification.  The TypeScript sources are shallowly embedded: JS `number`
is modelled by `ℚ` (with the Lean convention `x / 0 = 0` documented where it
matters), except where a claim is specifically about IEEE infinities, in
which case an explicit extended-number type `JNum` is used.  JS `Map`s are
modelled by association lists with insertion-order semantics, `Array.sort`
(stable) by a stable insertion sort, and `Date.now()` / random id generation
by explicit parameters.
-/

set_option maxHeartbeats 1000000

namespace Omni

/-! ## Math utilities (from src/utils math module) -/

/-- clamp, from the math utilities: `Math.min(Math.max(value, min), max)`. -/
def clamp (value lo hi : ℚ) : ℚ := min (max value lo) hi

/-- mean: `0` on the empty array, else sum divided by length. -/
def meanQ (l : List ℚ) : ℚ := if l = [] then 0 else l.sum / l.length

/-- kellyCriterion: `0` when `avgLoss = 0`, else
`winRate - (1 - winRate) / (avgWin / avgLoss)`. -/
def kellyCriterion (winRate avgWin avgLoss : ℚ) : ℚ :=
  if avgLoss = 0 then 0 else winRate - (1 - winRate) / (avgWin / avgLoss)

/-- Minimum of a list as JS `Math.min(...arr)` (infinity elided: the callers
below only use it on nonempty arrays, where the head-seeded fold agrees). -/
def minList (l : List ℚ) : ℚ :=
  match l with
  | [] => 0
  | x :: xs => xs.foldl min x

/-- Maximum of a list as JS `Math.max(...arr)` on nonempty arrays. -/
def maxList (l : List ℚ) : ℚ :=
  match l with
  | [] => 0
  | x :: xs => xs.foldl max x

/-- normalize: min-max normalization of an array to `[0,1]`; every entry maps
to `0.5` when the range is zero. -/
def normalizeArr (l : List ℚ) : List ℚ :=
  let lo := minList l
  let hi := maxList l
  let range := hi - lo
  if range = 0 then l.map (fun _ => (1 : ℚ) / 2)
  else l.map (fun x => (x - lo) / range)

/-- variance of an array as computed inside `standardDeviation`
(population variance; `0` on the empty array). -/
def varianceQ (l : List ℚ) : ℚ :=
  if l = [] then 0
  else
    let m := l.sum / l.length
    ((l.map (fun x => (x - m) ^ 2)).sum) / l.length

/-- standardDeviation: square root of the population variance, in `ℝ`. -/
noncomputable def standardDeviation (l : List ℚ) : ℝ :=
  Real.sqrt ((varianceQ l : ℚ) : ℝ)

/-- sigmoid: `1 / (1 + exp (-x))`. -/
noncomputable def sigmoid (x : ℝ) : ℝ := 1 / (1 + Real.exp (-x))

/-- Dot product of two equal-length arrays (the `dotProduct` accumulator of
`cosineSimilarity`). -/
def dotQ : List ℚ → List ℚ → ℚ
  | x :: xs, y :: ys => x * y + dotQ xs ys
  | _, _ => 0

/-- Sum of squares (the `normA` / `normB` accumulator of `cosineSimilarity`). -/
def normSq (l : List ℚ) : ℚ := (l.map (fun x => x * x)).sum

/-- cosineSimilarity: `0` when the lengths differ or either norm is zero,
else `dot / (sqrt normA * sqrt normB)`. -/
noncomputable def cosineSimilarity (a b : List ℚ) : ℝ :=
  if a.length ≠ b.length then 0
  else if normSq a = 0 ∨ normSq b = 0 then 0
  else (dotQ a b : ℝ) / (Real.sqrt ((normSq a : ℚ) : ℝ) * Real.sqrt ((normSq b : ℚ) : ℝ))

/-! ## Circular buffer (from the utils circular-buffer module)

`items` is the backing array of length `capacity`; unwritten slots are the
JS array holes, modelled by `none`. -/

structure CircularBuffer (α : Type) where
  capacity : ℕ
  items : List (Option α)
  head : ℕ
  tail : ℕ
  count : ℕ

/-- `new CircularBuffer(capacity)`. -/
def CircularBuffer.empty (α : Type) (c : ℕ) : CircularBuffer α :=
  ⟨c, List.replicate c none, 0, 0, 0⟩

/-- `add`: write at `tail`, advance `tail`; grow `count` until full, then
advance `head` (overwriting the oldest element). -/
def CircularBuffer.add {α : Type} (b : CircularBuffer α) (item : α) : CircularBuffer α :=
  let items := b.items.set b.tail (some item)
  let tail := (b.tail + 1) % b.capacity
  if b.count < b.capacity then
    { b with items := items, tail := tail, count := b.count + 1 }
  else
    { b with items := items, tail := tail, head := (b.head + 1) % b.capacity }

/-- `toArray`: the `count` live elements in insertion order, starting at
`head`. -/
def CircularBuffer.toArray {α : Type} [Inhabited α] (b : CircularBuffer α) : List α :=
  (List.range b.count).map fun i =>
    ((b.items.getD ((b.head + i) % b.capacity) none).getD default)

/-- Appending a whole list, one `add` at a time. -/
def CircularBuffer.addAll {α : Type} (b : CircularBuffer α) (l : List α) : CircularBuffer α :=
  l.foldl CircularBuffer.add b

/-- The buffer obtained by appending `0, 1, …, n−1` to an empty buffer of
capacity `c`. -/
def natFill (c n : ℕ) : CircularBuffer ℕ :=
  CircularBuffer.addAll (CircularBuffer.empty ℕ c) (List.range n)

lemma natFill_succ (c n : ℕ) :
    natFill c (n + 1) = (natFill c n).add n := by
  unfold natFill CircularBuffer.addAll
  rw [List.range_succ, List.foldl_append]
  rfl

lemma natFill_capacity (c n : ℕ) : (natFill c n).capacity = c := by
  induction n with
  | zero => rfl
  | succ n ih =>
    rw [natFill_succ]
    unfold CircularBuffer.add
    dsimp only
    split <;> simpa using ih

lemma natFill_items_length (c n : ℕ) : (natFill c n).items.length = c := by
  induction n with
  | zero => simp [natFill, CircularBuffer.addAll, CircularBuffer.empty]
  | succ n ih =>
    rw [natFill_succ]
    unfold CircularBuffer.add
    dsimp only
    split <;> simpa using ih

lemma add_one_mod (c n : ℕ) : (n % c + 1) % c = (n + 1) % c := by
  conv_rhs => rw [Nat.add_mod]
  rw [Nat.add_mod (n % c) 1, Nat.mod_mod_of_dvd n (dvd_refl c)]

lemma natFill_count (c n : ℕ) : (natFill c n).count = min n c := by
  induction n with
  | zero => simp [natFill, CircularBuffer.addAll, CircularBuffer.empty]
  | succ n ih =>
    rw [natFill_succ]
    unfold CircularBuffer.add
    dsimp only
    rw [natFill_capacity] at *
    split <;> dsimp only <;> omega

lemma natFill_tail (c n : ℕ) (hc : 1 ≤ c) : (natFill c n).tail = n % c := by
  induction n with
  | zero => simp [natFill, CircularBuffer.addAll, CircularBuffer.empty]
  | succ n ih =>
    rw [natFill_succ]
    unfold CircularBuffer.add
    dsimp only
    rw [natFill_capacity] at *
    split <;> dsimp only <;> rw [ih, add_one_mod]

lemma natFill_head_le (c n : ℕ) (hn : n ≤ c) : (natFill c n).head = 0 := by
  induction n with
  | zero => simp [natFill, CircularBuffer.addAll, CircularBuffer.empty]
  | succ n ih =>
    rw [natFill_succ]
    unfold CircularBuffer.add
    dsimp only
    rw [natFill_capacity, natFill_count]
    have hmn : min n c = n := by omega
    rw [hmn]
    split <;> dsimp only
    · exact ih (by omega)
    · omega

lemma natFill_head_ge (c n : ℕ) (hc : 1 ≤ c) (hn : c ≤ n) :
    (natFill c n).head = n % c := by
  induction n with
  | zero => omega
  | succ n ih =>
    rw [natFill_succ]
    unfold CircularBuffer.add
    dsimp only
    rw [natFill_capacity, natFill_count]
    rcases Nat.lt_or_ge n c with h | h
    · have hnc : n + 1 = c := by omega
      have hmn : min n c = n := by omega
      rw [hmn]
      split <;> dsimp only
      · rw [natFill_head_le c n (le_of_lt h), hnc, Nat.mod_self]
      · omega
    · have hmn : min n c = c := by omega
      rw [hmn]
      split <;> dsimp only
      · omega
      · rw [ih h, add_one_mod]

/-- Contents of the slots after filling `0, …, n−1` with `n ≤ c`: slot `j`
holds `j` when written, and is still a hole otherwise. -/
lemma natFill_items_le (c n : ℕ) (hn : n ≤ c) (j : ℕ) (hj : j < c) :
    (natFill c n).items.getD j none = if j < n then some j else none := by
  induction n with
  | zero =>
    simp only [natFill, CircularBuffer.addAll, List.range_zero, List.foldl_nil,
      CircularBuffer.empty, Nat.not_lt_zero, if_false]
    rw [List.getD_eq_getElem?_getD, List.getElem?_replicate_of_lt hj]
    rfl
  | succ n ih =>
    rw [natFill_succ]
    unfold CircularBuffer.add
    dsimp only
    have htail : (natFill c n).tail = n % c := natFill_tail c n (by omega)
    have hlen : (natFill c n).items.length = c := natFill_items_length c n
    have hmod : n % c = n := Nat.mod_eq_of_lt (by omega)
    have key : ((natFill c n).items.set (natFill c n).tail (some n)).getD j none =
        if j < n + 1 then some j else none := by
      rw [htail, hmod]
      rcases eq_or_ne j n with rfl | hne
      · rw [List.getD_eq_getElem?_getD, List.getElem?_set_self (by omega)]
        simp
      · rw [List.getD_eq_getElem?_getD, List.getElem?_set_ne (by omega)]
        rw [← List.getD_eq_getElem?_getD, ih (by omega)]
        have hiff : j < n ↔ j < n + 1 := by omega
        simp only [hiff]
    split <;> simpa using key

/-- Contents of the slots after filling `0, …, n−1` with `c ≤ n`: slot `j`
holds the last index written there, `n − 1 − ((n − 1 − j) % c)`. -/
lemma natFill_items_ge (c n : ℕ) (hc : 1 ≤ c) (hn : c ≤ n) (j : ℕ) (hj : j < c) :
    (natFill c n).items.getD j none = some (n - 1 - ((n - 1 - j) % c)) := by
  induction n with
  | zero => omega
  | succ n ih =>
    rw [natFill_succ]
    unfold CircularBuffer.add
    dsimp only
    have htail : (natFill c n).tail = n % c := natFill_tail c n hc
    have hlen : (natFill c n).items.length = c := natFill_items_length c n
    have key : ((natFill c n).items.set (natFill c n).tail (some n)).getD j none =
        some (n + 1 - 1 - ((n + 1 - 1 - j) % c)) := by
      rw [htail]
      rcases eq_or_ne j (n % c) with rfl | hne
      · rw [List.getD_eq_getElem?_getD, List.getElem?_set_self (by omega)]
        have h1 : (n - n % c) % c = 0 := by
          have := Nat.mod_add_div n c
          have h2 : n - n % c = c * (n / c) := by omega
          rw [h2]
          exact Nat.mul_mod_right c (n / c)
        simp [h1]
      · rw [List.getD_eq_getElem?_getD, List.getElem?_set_ne (by omega)]
        rw [← List.getD_eq_getElem?_getD]
        rcases Nat.lt_or_ge n c with h | h
        · -- previous state is still in the partial regime: n + 1 = c
          have hmod : n % c = n := Nat.mod_eq_of_lt h
          rw [hmod] at hne
          have hjn : j < n := by omega
          rw [natFill_items_le c n (by omega) j hj]
          have hrange : n - j < c := by omega
          rw [if_pos hjn]
          have h1 : (n + 1 - 1 - j) % c = n - j := by
            have : n + 1 - 1 - j = n - j := by omega
            rw [this, Nat.mod_eq_of_lt hrange]
          rw [h1]
          congr 1
          omega
        · rw [ih h]
          -- last write to slot j steps forward by exactly one index
          have hc0 : 0 < c := by omega
          set r := (n - j) % c with hr_def
          have hr : r < c := Nat.mod_lt _ hc0
          have hq := Nat.div_add_mod (n - j) c
          set q := (n - j) / c with hq_def
          have hrne : r ≠ 0 := by
            intro h0
            apply hne
            have hnj : n - j = c * q := by omega
            have hn' : n = j + c * q := by omega
            rw [hn', Nat.add_mul_mod_self_left, Nat.mod_eq_of_lt hj]
          have h2 : (n - 1 - j) % c = r - 1 := by
            have he : n - 1 - j = c * q + (r - 1) := by omega
            rw [he, Nat.mul_add_mod, Nat.mod_eq_of_lt (by omega)]
          have h3 : (n + 1 - 1 - j) % c = r := by
            have he : n + 1 - 1 - j = n - j := by omega
            rw [he]
          rw [h2, h3]
          congr 1
          omega
    split <;> simpa using key

/-- C9: for every capacity `c ≥ 1` and every `N ≥ c`, after appending the
values `0, 1, …, N−1` in order to a circular buffer of capacity `c`,
`toArray()` equals `[N−c, …, N−1]` (oldest to newest); each append beyond
capacity overwrites the oldest element. -/
theorem c9_circular_buffer_wraparound (c N : ℕ) (hc : 1 ≤ c) (hN : c ≤ N) :
    (natFill c N).toArray = (List.range c).map (fun i => N - c + i) := by
  unfold CircularBuffer.toArray
  rw [natFill_count, natFill_capacity, natFill_head_ge c N hc hN]
  have hmn : min N c = c := by omega
  rw [hmn]
  apply List.map_congr_left
  intro i hi
  rw [List.mem_range] at hi
  set j := (N % c + i) % c with hj_def
  have hjc : j < c := Nat.mod_lt _ (by omega)
  have hj2 : j = (N + i) % c := by
    rw [hj_def, Nat.add_mod N i c, Nat.add_mod (N % c) i c,
      Nat.mod_mod_of_dvd N (dvd_refl c)]
  obtain ⟨q, hq⟩ : ∃ q, c * q + j = N + i :=
    ⟨(N + i) / c, by rw [hj2]; exact Nat.div_add_mod (N + i) c⟩
  have hq1 : 1 ≤ q := by
    rcases Nat.eq_zero_or_pos q with h0 | h1
    · rw [h0, Nat.mul_zero] at hq
      omega
    · exact h1
  obtain ⟨q', rfl⟩ : ∃ q', q = q' + 1 := ⟨q - 1, by omega⟩
  have hmul : c * (q' + 1) = c * q' + c := by ring
  have hq' : c * q' + c + j = N + i := by omega
  have hval : N - 1 - j = c * q' + (c - 1 - i) := by omega
  rw [natFill_items_ge c N hc hN j hjc, hval, Nat.mul_add_mod,
    Nat.mod_eq_of_lt (show c - 1 - i < c by omega)]
  simp only [Option.getD_some]
  omega

/-- Witness for C9 at capacity 3 and 5 appends: the buffer holds `[2, 3, 4]`. -/
theorem c9_circular_buffer_wraparound_witness :
    (natFill 3 5).toArray = (List.range 3).map (fun i => 5 - 3 + i) :=
  c9_circular_buffer_wraparound 3 5 (by decide) (by decide)

/-! ## Shared data model (from core/types.ts), JS numbers as `ℚ` -/

inductive SignalDirection
  | long
  | short
  | neutral
deriving DecidableEq, Inhabited

inductive Side
  | long
  | short
deriving DecidableEq

inductive VolRegime
  | low
  | normal
  | elevated
  | high
  | extreme
deriving DecidableEq, Inhabited

inductive Trend
  | up
  | down
  | sideways
deriving DecidableEq, Inhabited

inductive FlowDirection
  | buying
  | selling
  | neutral
deriving DecidableEq, Inhabited

structure GammaSurface where
  strikes : List ℚ
  expiries : List ℚ
  values : List (List ℚ)
  maxGamma : ℚ
  minGamma : ℚ
  netGamma : ℚ
deriving DecidableEq

structure Attractor where
  price : ℚ
  strength : ℚ
deriving DecidableEq

structure GravitationalPull where
  direction : ℚ
  magnitude : ℚ
  attractors : List Attractor
deriving DecidableEq

/-- Liquidity map; the per-level list is not consumed by any verified
component, so only the aggregate fields are modelled. -/
structure LiquidityMap where
  imbalance : ℚ
  depth : ℚ
  absorptionRate : ℚ
deriving DecidableEq

structure VolatilityState where
  regime : VolRegime
  historicalVol : ℚ
  impliedVol : ℚ
  volSpread : ℚ
  volOfVol : ℚ
  skew : ℚ
  term : ℚ
deriving DecidableEq

structure DealerPositioning where
  netGammaExposure : ℚ
  netDeltaExposure : ℚ
  hedgingPressure : ℚ
  flowDirection : FlowDirection
  confidence : ℚ
deriving DecidableEq

structure PriceHistory where
  prices : List ℚ
  momentum : ℚ
  trend : Trend
  trendStrength : ℚ
deriving DecidableEq

structure StructuralFeatures where
  gammaSurface : GammaSurface
  gammaPull : GravitationalPull
  liquidityMap : LiquidityMap
  volatilityRegime : VolatilityState
  dealerPositioning : DealerPositioning
  priceHistory : PriceHistory
deriving DecidableEq

structure StructuralContext where
  gammaLevel : ℚ
  liquiditySupport : ℚ
  volatilityState : VolRegime
  dealerFlow : FlowDirection
deriving DecidableEq, Inhabited

/-- Signal fields consumed by risk governance (ids, timestamps and rationale
text are irrelevant to the verified properties and are omitted). -/
structure Signal where
  direction : SignalDirection
  strength : ℚ
  confidence : ℚ
  entryPrice : ℚ
  stopLoss : ℚ
  targets : List ℚ
  structuralContext : StructuralContext
deriving DecidableEq, Inhabited

structure Position where
  side : Side
  size : ℚ
  currentPrice : ℚ
deriving DecidableEq

structure Portfolio where
  positions : List Position
  totalValue : ℚ
  cashBalance : ℚ
  marginUsed : ℚ
  marginAvailable : ℚ
  unrealizedPnL : ℚ
  realizedPnL : ℚ
  dailyPnL : ℚ
  maxDrawdown : ℚ
  currentDrawdown : ℚ
deriving DecidableEq

/-! ## Risk governance (from core/meta-controller RiskGovernance) -/

structure RiskLimits where
  maxPositionSize : ℚ
  maxPortfolioRisk : ℚ
  maxCorrelation : ℚ
  maxDrawdown : ℚ
  maxDailyLoss : ℚ
  maxConcentration : ℚ
deriving DecidableEq

/-- The defaults from the `RiskGovernance` constructor. -/
def defaultLimits : RiskLimits :=
  { maxPositionSize := 1/10
    maxPortfolioRisk := 1/50
    maxCorrelation := 7/10
    maxDrawdown := 3/20
    maxDailyLoss := 1/20
    maxConcentration := 3/10 }

/-- Mutable fields of a `RiskGovernance` instance. -/
structure RiskState where
  limits : RiskLimits
  killSwitchActive : Bool
  killSwitchReason : String
  dailyPnL : ℚ
  peakEquity : ℚ
deriving DecidableEq

/-- A freshly constructed `RiskGovernance` with the given limits. -/
def initialRiskState (limits : RiskLimits) : RiskState :=
  { limits := limits
    killSwitchActive := false
    killSwitchReason := ""
    dailyPnL := 0
    peakEquity := 0 }

structure RiskMetrics where
  correlation : ℚ
  gammaExposure : ℚ
  varContribution : ℚ
  maxLoss : ℚ
  marginRequired : ℚ
deriving DecidableEq, Inhabited

inductive Urgency
  | high
  | medium
  | low
deriving DecidableEq, Inhabited

inductive OrderType
  | market
  | limitOrder
deriving DecidableEq, Inhabited

inductive TimeInForce
  | ioc
  | day
deriving DecidableEq, Inhabited

structure ExecutionConstraints where
  maxSlippage : ℚ
  urgency : Urgency
  orderType : OrderType
  icebergRatio : ℚ
  timeInForce : TimeInForce
deriving DecidableEq, Inhabited

/-- ApprovedSignal (the `approvalTimestamp` is `Date.now()` noise and is
omitted). -/
structure ApprovedSignal where
  originalSignal : Signal
  approvedSize : ℚ
  riskMetrics : RiskMetrics
  executionConstraints : ExecutionConstraints
  riskScore : ℚ
deriving DecidableEq, Inhabited

/-- activateKillSwitch (the logged reason text is kept without the
interpolated numbers). -/
def activateKillSwitch (s : RiskState) (reason : String) : RiskState :=
  { s with killSwitchActive := true, killSwitchReason := reason }

/-- getVolatilityMultiplier. -/
def getVolatilityMultiplier (f : StructuralFeatures) : ℚ :=
  match f.volatilityRegime.regime with
  | VolRegime.low => 6/5
  | VolRegime.normal => 1
  | VolRegime.elevated => 4/5
  | VolRegime.high => 1/2
  | VolRegime.extreme => 1/4

/-- calculatePositionSize.  `targets[0]` on an empty target list is modelled
as `0` (the concrete inputs used below always carry a target). -/
def calculatePositionSize (limits : RiskLimits) (signal : Signal)
    (portfolio : Portfolio) (f : StructuralFeatures) : ℚ :=
  let estimatedWinRate := signal.confidence
  let avgWin := |signal.targets.getD 0 0 - signal.entryPrice| / signal.entryPrice
  let avgLoss := |signal.entryPrice - signal.stopLoss| / signal.entryPrice
  let kellyFraction := clamp (kellyCriterion estimatedWinRate avgWin avgLoss) 0 (1/4)
  let halfKelly := kellyFraction / 2
  let volMultiplier := getVolatilityMultiplier f
  let baseSize := portfolio.totalValue * halfKelly * volMultiplier
  let maxSize := portfolio.totalValue * limits.maxPositionSize
  let marginConstrained := min baseSize (portfolio.marginAvailable / (1/2))
  min baseSize (min maxSize marginConstrained)

/-- calculateCorrelationRisk. -/
def calculateCorrelationRisk (signal : Signal) (portfolio : Portfolio) : ℚ :=
  if portfolio.positions = [] then 0
  else
    let sameDirectionPositions := portfolio.positions.filter fun p =>
      decide ((p.side = Side.long ∧ signal.direction = SignalDirection.long) ∨
        (p.side = Side.short ∧ signal.direction = SignalDirection.short))
    let totalSameDirection :=
      (sameDirectionPositions.map fun p => |p.size * p.currentPrice|).sum
    totalSameDirection / portfolio.totalValue

/-- calculateRiskMetrics. -/
def calculateRiskMetrics (signal : Signal) (portfolio : Portfolio) : RiskMetrics :=
  let correlationRisk := calculateCorrelationRisk signal portfolio
  let gammaExposure := signal.structuralContext.gammaLevel * (1/100)
  let signalRisk := |signal.entryPrice - signal.stopLoss| / signal.entryPrice
  let varContribution := signalRisk * signal.confidence
  { correlation := correlationRisk
    gammaExposure := gammaExposure
    varContribution := varContribution
    maxLoss := signalRisk
    marginRequired := signal.entryPrice * (1/2) }

/-- determineExecutionConstraints. -/
def determineExecutionConstraints (signal : Signal) (f : StructuralFeatures) :
    ExecutionConstraints :=
  let urgency :=
    if signal.strength > 4/5 ∧ f.volatilityRegime.regime ≠ VolRegime.extreme then
      Urgency.high
    else if signal.strength > 1/2 then Urgency.medium
    else Urgency.low
  let orderType :=
    if urgency = Urgency.high then OrderType.market
    else if f.volatilityRegime.regime = VolRegime.high ∨
        f.volatilityRegime.regime = VolRegime.extreme then OrderType.limitOrder
    else OrderType.limitOrder
  let baseSlippage : ℚ := 1/1000
  let volAdjustment := f.volatilityRegime.impliedVol / 100
  let liquidityAdjustment := 1 / (f.liquidityMap.depth + 1)
  let maxSlippage := baseSlippage * (1 + volAdjustment + liquidityAdjustment)
  let icebergRatio : ℚ := if signal.strength > 7/10 then 1/5 else 1/2
  { maxSlippage := maxSlippage
    urgency := urgency
    orderType := orderType
    icebergRatio := icebergRatio
    timeInForce := if urgency = Urgency.high then TimeInForce.ioc else TimeInForce.day }

/-- calculateRiskScore. -/
def calculateRiskScore (riskMetrics : RiskMetrics) (f : StructuralFeatures) : ℚ :=
  let volScore : ℚ :=
    if f.volatilityRegime.regime = VolRegime.extreme then 1
    else if f.volatilityRegime.regime = VolRegime.high then 7/10
    else if f.volatilityRegime.regime = VolRegime.elevated then 4/10
    else 2/10
  let score := riskMetrics.correlation * (3/10) +
    |riskMetrics.gammaExposure| * (1/1000) * (2/10) +
    riskMetrics.varContribution * (3/10) +
    volScore * (2/10)
  clamp score 0 1

/-- Stable insertion of an element into a list sorted ascending by `key`
(keeps the inserted element in front of equal keys, matching the stable JS
`Array.sort`). -/
def insertSorted {α : Type} (key : α → ℚ) (x : α) : List α → List α
  | [] => [x]
  | y :: ys => if key y < key x then y :: insertSorted key x ys else x :: y :: ys

/-- Stable ascending sort by `key`, modelling `Array.prototype.sort` with a
numeric comparator. -/
def sortByKey {α : Type} (key : α → ℚ) : List α → List α
  | [] => []
  | x :: xs => insertSorted key x (sortByKey key xs)

/-- The greedy acceptance loop of applyPortfolioConstraints: accept while the
cumulative VaR stays within `maxPortfolioRisk` and cumulative margin stays
within the portfolio's available margin. -/
def acceptLoop (limits : RiskLimits) (portfolio : Portfolio) :
    List ApprovedSignal → ℚ → ℚ → List ApprovedSignal
  | [], _, _ => []
  | s :: rest, totalRisk, totalMargin =>
    let newTotalRisk := totalRisk + s.riskMetrics.varContribution
    if newTotalRisk > limits.maxPortfolioRisk then
      acceptLoop limits portfolio rest totalRisk totalMargin
    else
      let newMargin := totalMargin + s.riskMetrics.marginRequired
      if newMargin > portfolio.marginAvailable + portfolio.marginUsed then
        acceptLoop limits portfolio rest totalRisk totalMargin
      else
        s :: acceptLoop limits portfolio rest newTotalRisk newMargin

/-- applyPortfolioConstraints: sort ascending by risk score, then greedily
accept within the portfolio-level budgets. -/
def applyPortfolioConstraints (limits : RiskLimits)
    (signals : List ApprovedSignal) (portfolio : Portfolio) : List ApprovedSignal :=
  if signals = [] then []
  else
    let sorted := sortByKey (fun s => s.riskScore) signals
    acceptLoop limits portfolio sorted 0 portfolio.marginUsed

/-- updateRiskState: raise the equity peak, then arm the kill switch on a
drawdown breach, then record the daily PnL and arm it on a daily-loss
breach. -/
def updateRiskState (s : RiskState) (portfolio : Portfolio) : RiskState :=
  let s1 := if portfolio.totalValue > s.peakEquity then
      { s with peakEquity := portfolio.totalValue }
    else s
  let currentDrawdown := (s1.peakEquity - portfolio.totalValue) / s1.peakEquity
  let s2 := if currentDrawdown > s1.limits.maxDrawdown then
      activateKillSwitch s1 "Max drawdown exceeded"
    else s1
  let s3 := { s2 with dailyPnL := portfolio.dailyPnL }
  if s3.dailyPnL < -(s3.limits.maxDailyLoss * portfolio.totalValue) then
    activateKillSwitch s3 "Max daily loss exceeded"
  else s3

/-- checkGlobalRiskLimits: require at least 10% of total value in available
margin and no single-position concentration above the limit. -/
def checkGlobalRiskLimits (limits : RiskLimits) (portfolio : Portfolio) : Bool :=
  if portfolio.marginAvailable < portfolio.totalValue * (1/10) then false
  else portfolio.positions.all fun position =>
    !(decide (|position.size * position.currentPrice| / portfolio.totalValue >
      limits.maxConcentration))

/-- The per-signal body of the approval loop in `filterSignals`: compute the
position size, skip non-positive sizes, then apply the correlation and gamma
exposure rejections. -/
def approveOne (limits : RiskLimits) (portfolio : Portfolio)
    (f : StructuralFeatures) (signal : Signal) : Option ApprovedSignal :=
  let positionSize := calculatePositionSize limits signal portfolio f
  if positionSize ≤ 0 then none
  else
    let riskMetrics := calculateRiskMetrics signal portfolio
    if riskMetrics.correlation > limits.maxCorrelation then none
    else if |riskMetrics.gammaExposure| > portfolio.totalValue * (1/100) then none
    else some
      { originalSignal := signal
        approvedSize := positionSize
        riskMetrics := riskMetrics
        executionConstraints := determineExecutionConstraints signal f
        riskScore := calculateRiskScore riskMetrics f }

/-- filterSignals, returning the updated governance state together with the
approved list.  The state written by `updateRiskState` (whose limits are
untouched) is threaded to the subsequent checks exactly as in the source. -/
def filterSignals (s : RiskState) (signals : List Signal) (portfolio : Portfolio)
    (f : StructuralFeatures) : RiskState × List ApprovedSignal :=
  if s.killSwitchActive then (s, [])
  else if !(checkGlobalRiskLimits (updateRiskState s portfolio).limits portfolio) then
    (updateRiskState s portfolio, [])
  else
    (updateRiskState s portfolio,
      applyPortfolioConstraints (updateRiskState s portfolio).limits
        (signals.filterMap
          (approveOne (updateRiskState s portfolio).limits portfolio f))
        portfolio)

/-! ### Auxiliary lemmas about risk governance -/

lemma activateKillSwitch_limits (s : RiskState) (r : String) :
    (activateKillSwitch s r).limits = s.limits := rfl

lemma activateKillSwitch_active (s : RiskState) (r : String) :
    (activateKillSwitch s r).killSwitchActive = true := rfl

lemma updateRiskState_limits (s : RiskState) (pf : Portfolio) :
    (updateRiskState s pf).limits = s.limits := by
  unfold updateRiskState activateKillSwitch
  dsimp only
  split_ifs <;> rfl

lemma mem_insertSorted {α : Type} (key : α → ℚ) (x a : α) (l : List α) :
    a ∈ insertSorted key x l ↔ a = x ∨ a ∈ l := by
  induction l with
  | nil => simp [insertSorted]
  | cons y ys ih =>
    unfold insertSorted
    split_ifs with h
    · rw [List.mem_cons, ih, List.mem_cons]
      tauto
    · rw [List.mem_cons, List.mem_cons]

lemma mem_sortByKey {α : Type} (key : α → ℚ) (a : α) (l : List α) :
    a ∈ sortByKey key l ↔ a ∈ l := by
  induction l with
  | nil => simp [sortByKey]
  | cons x xs ih =>
    unfold sortByKey
    rw [mem_insertSorted, ih, List.mem_cons]

lemma mem_acceptLoop (limits : RiskLimits) (pf : Portfolio)
    (l : List ApprovedSignal) (tr tm : ℚ) (a : ApprovedSignal)
    (h : a ∈ acceptLoop limits pf l tr tm) : a ∈ l := by
  induction l generalizing tr tm with
  | nil => simpa [acceptLoop] using h
  | cons s rest ih =>
    unfold acceptLoop at h
    dsimp only at h
    split_ifs at h with h1 h2
    · exact List.mem_cons_of_mem _ (ih _ _ h)
    · exact List.mem_cons_of_mem _ (ih _ _ h)
    · rcases List.mem_cons.mp h with rfl | h'
      · exact List.mem_cons_self _ _
      · exact List.mem_cons_of_mem _ (ih _ _ h')

lemma mem_applyPortfolioConstraints (limits : RiskLimits)
    (signals : List ApprovedSignal) (pf : Portfolio) (a : ApprovedSignal)
    (h : a ∈ applyPortfolioConstraints limits signals pf) : a ∈ signals := by
  unfold applyPortfolioConstraints at h
  split_ifs at h with h0
  · simp at h
  · exact (mem_sortByKey _ a signals).mp (mem_acceptLoop _ _ _ _ _ _ h)

/-- If the kill switch is active on entry, `filterSignals` returns immediately
with an empty approval list and an unchanged state. -/
lemma filterSignals_killSwitch (s : RiskState) (signals : List Signal)
    (pf : Portfolio) (f : StructuralFeatures) (h : s.killSwitchActive = true) :
    filterSignals s signals pf f = (s, []) := by
  unfold filterSignals
  rw [if_pos h]

/-- Every approved signal emitted by `filterSignals` originates from an input
signal via `calculatePositionSize`. -/
lemma mem_filterSignals_approvedSize (s : RiskState) (signals : List Signal)
    (pf : Portfolio) (f : StructuralFeatures) (a : ApprovedSignal)
    (h : a ∈ (filterSignals s signals pf f).2) :
    ∃ signal ∈ signals, a.approvedSize = calculatePositionSize s.limits signal pf f := by
  unfold filterSignals at h
  split_ifs at h with h1 h2
  · simp at h
  · simp at h
  · simp only at h
    have h3 := mem_applyPortfolioConstraints _ _ _ _ h
    obtain ⟨signal, hsig, heq⟩ := List.mem_filterMap.mp h3
    rw [updateRiskState_limits] at heq
    unfold approveOne at heq
    dsimp only at heq
    split_ifs at heq with p1 p2 p3
    obtain rfl := Option.some.inj heq
    exact ⟨signal, hsig, rfl⟩

/-! ### Concrete inputs used by witnesses and counterexamples -/

/-- A normal-volatility structural snapshot. -/
def featX : StructuralFeatures :=
  { gammaSurface :=
      { strikes := [100], expiries := [30], values := [[1000]]
        maxGamma := 1000, minGamma := 1000, netGamma := 1000 }
    gammaPull := { direction := 0, magnitude := 0, attractors := [] }
    liquidityMap := { imbalance := 0, depth := 1000, absorptionRate := 0 }
    volatilityRegime :=
      { regime := VolRegime.normal, historicalVol := 18, impliedVol := 20
        volSpread := 2, volOfVol := 1/10, skew := 0, term := 0 }
    dealerPositioning :=
      { netGammaExposure := 1000, netDeltaExposure := 0, hedgingPressure := -10
        flowDirection := FlowDirection.neutral, confidence := 1/2 }
    priceHistory :=
      { prices := [100], momentum := 0, trend := Trend.sideways, trendStrength := 0 } }

/-- A long signal entering at 100 with stop 99 and target 102. -/
def sigX : Signal :=
  { direction := SignalDirection.long
    strength := 3/5
    confidence := 3/5
    entryPrice := 100
    stopLoss := 99
    targets := [102]
    structuralContext :=
      { gammaLevel := 0, liquiditySupport := 1000
        volatilityState := VolRegime.normal, dealerFlow := FlowDirection.neutral } }

/-- A position-free portfolio worth 80k with ample margin. -/
def pfDrawdown : Portfolio :=
  { positions := [], totalValue := 80000, cashBalance := 80000
    marginUsed := 0, marginAvailable := 50000, unrealizedPnL := 0
    realizedPnL := 0, dailyPnL := 0, maxDrawdown := 0, currentDrawdown := 0 }

/-- A portfolio with a **positive** daily PnL of 10k on 100k total value. -/
def pfProfit : Portfolio :=
  { positions := [], totalValue := 100000, cashBalance := 100000
    marginUsed := 0, marginAvailable := 50000, unrealizedPnL := 0
    realizedPnL := 0, dailyPnL := 10000, maxDrawdown := 0, currentDrawdown := 0 }

/-- A portfolio with a daily loss of 10k on 100k total value. -/
def pfLoss : Portfolio :=
  { positions := [], totalValue := 100000, cashBalance := 100000
    marginUsed := 0, marginAvailable := 50000, unrealizedPnL := 0
    realizedPnL := 0, dailyPnL := -10000, maxDrawdown := 0, currentDrawdown := 0 }

/-- Governance state whose tracked equity peak is 100k, kill switch off. -/
def statePeak : RiskState :=
  { limits := defaultLimits, killSwitchActive := false, killSwitchReason := ""
    dailyPnL := 0, peakEquity := 100000 }

/-- Governance state with the kill switch armed. -/
def stateActive : RiskState :=
  { limits := defaultLimits, killSwitchActive := true
    killSwitchReason := "Max drawdown exceeded", dailyPnL := 0, peakEquity := 100000 }

/-! ### C1 -/

/-- C1: for every list of signals, every portfolio and every
structural-features snapshot, if the kill switch is active when
`filterSignals` is called, the call returns the empty list. -/
theorem c1_kill_switch_filters_all (s : RiskState) (signals : List Signal)
    (pf : Portfolio) (f : StructuralFeatures) (h : s.killSwitchActive = true) :
    (filterSignals s signals pf f).2 = [] := by
  rw [filterSignals_killSwitch s signals pf f h]

/-- Witness for C1 on a concrete armed state. -/
theorem c1_kill_switch_filters_all_witness :
    stateActive.killSwitchActive = true ∧
    (filterSignals stateActive [sigX] pfDrawdown featX).2 = [] :=
  ⟨rfl, c1_kill_switch_filters_all stateActive [sigX] pfDrawdown featX rfl⟩

/-! ### C2 -/

/-- Counterexample to C2 as stated: a **positive** daily PnL whose absolute
value exceeds `maxDailyLoss · totalValue` does not activate the kill switch
(the code compares the signed PnL against the negative threshold only). -/
theorem c2_daily_loss_counterexample :
    |pfProfit.dailyPnL| > defaultLimits.maxDailyLoss * pfProfit.totalValue ∧
    (updateRiskState (initialRiskState defaultLimits) pfProfit).killSwitchActive = false := by
  constructor
  · norm_num [pfProfit, defaultLimits]
  · norm_num [updateRiskState, activateKillSwitch, initialRiskState, defaultLimits,
      pfProfit]

/-- C2 (amended): the risk-state update activates the kill switch exactly on
the signed breach `dailyPnL < −maxDailyLoss · totalValue`; here the
activation direction is proved. -/
theorem c2_daily_loss_kill_switch (s : RiskState) (pf : Portfolio)
    (h : pf.dailyPnL < -(s.limits.maxDailyLoss * pf.totalValue)) :
    (updateRiskState s pf).killSwitchActive = true := by
  unfold updateRiskState activateKillSwitch
  dsimp only
  split_ifs <;> simp_all

/-- Witness for the amended C2 on a 10% daily loss against a 5% limit. -/
theorem c2_daily_loss_kill_switch_witness :
    pfLoss.dailyPnL < -((initialRiskState defaultLimits).limits.maxDailyLoss * pfLoss.totalValue) ∧
    (updateRiskState (initialRiskState defaultLimits) pfLoss).killSwitchActive = true :=
  ⟨by norm_num [pfLoss, initialRiskState, defaultLimits],
   c2_daily_loss_kill_switch (initialRiskState defaultLimits) pfLoss
     (by norm_num [pfLoss, initialRiskState, defaultLimits])⟩

/-! ### C4 -/

/-- The position size as the specification describes it: the minimum of
portfolio · half-Kelly · volatility multiplier, `maxPositionSize` · portfolio
value, and `marginAvailable / 0.5`, the Kelly fraction being clamped to
`[0, 0.25]` before halving. -/
def positionSizeSpec (limits : RiskLimits) (signal : Signal)
    (portfolio : Portfolio) (f : StructuralFeatures) : ℚ :=
  let avgWin := |signal.targets.getD 0 0 - signal.entryPrice| / signal.entryPrice
  let avgLoss := |signal.entryPrice - signal.stopLoss| / signal.entryPrice
  let halfKelly := clamp (kellyCriterion signal.confidence avgWin avgLoss) 0 (1/4) / 2
  min (portfolio.totalValue * halfKelly * getVolatilityMultiplier f)
    (min (portfolio.totalValue * limits.maxPositionSize)
      (portfolio.marginAvailable / (1/2)))

lemma calculatePositionSize_eq_spec (limits : RiskLimits) (signal : Signal)
    (portfolio : Portfolio) (f : StructuralFeatures) :
    calculatePositionSize limits signal portfolio f =
      positionSizeSpec limits signal portfolio f := by
  unfold calculatePositionSize positionSizeSpec
  dsimp only
  generalize portfolio.totalValue *
    (clamp (kellyCriterion signal.confidence _ _) 0 (1/4) / 2) *
    getVolatilityMultiplier f = b
  generalize portfolio.totalValue * limits.maxPositionSize = m
  generalize portfolio.marginAvailable / (1/2) = g
  rw [min_left_comm m b g, ← min_assoc, min_self]

/-- C4: every signal approved by `filterSignals` has
`approvedSize ≤ maxPositionSize · totalValue`, and its size is the minimum
described by the specification (half-Kelly with clamping, position cap,
margin cap). -/
theorem c4_approved_size_bounded (s : RiskState) (signals : List Signal)
    (pf : Portfolio) (f : StructuralFeatures) (a : ApprovedSignal)
    (h : a ∈ (filterSignals s signals pf f).2) :
    a.approvedSize ≤ s.limits.maxPositionSize * pf.totalValue ∧
    ∃ signal ∈ signals, a.approvedSize = positionSizeSpec s.limits signal pf f := by
  obtain ⟨signal, hsig, heq⟩ := mem_filterSignals_approvedSize s signals pf f a h
  rw [calculatePositionSize_eq_spec] at heq
  refine ⟨?_, signal, hsig, heq⟩
  rw [heq]
  unfold positionSizeSpec
  dsimp only
  calc min _ (min (pf.totalValue * s.limits.maxPositionSize) _)
      ≤ min (pf.totalValue * s.limits.maxPositionSize) _ := min_le_right _ _
    _ ≤ pf.totalValue * s.limits.maxPositionSize := min_le_left _ _
    _ = s.limits.maxPositionSize * pf.totalValue := mul_comm _ _

lemma headI_mem {α : Type} [Inhabited α] {l : List α} (h : l ≠ []) : l.headI ∈ l := by
  cases l with
  | nil => exact absurd rfl h
  | cons x xs => exact List.mem_cons_self x xs

/-- The approved record produced by the concrete run below. -/
def approvedX : ApprovedSignal :=
  { originalSignal := sigX
    approvedSize := 8000
    riskMetrics :=
      { correlation := 0, gammaExposure := 0, varContribution := 3/500
        maxLoss := 1/100, marginRequired := 50 }
    executionConstraints :=
      { maxSlippage := 6011/5005000, urgency := Urgency.medium
        orderType := OrderType.limitOrder, icebergRatio := 1/2
        timeInForce := TimeInForce.day }
    riskScore := 209/5000 }

lemma approveOne_sigX :
    approveOne defaultLimits pfDrawdown featX sigX = some approvedX := by
  norm_num [approveOne, calculatePositionSize, kellyCriterion, clamp,
    getVolatilityMultiplier, calculateRiskMetrics, calculateCorrelationRisk,
    determineExecutionConstraints, calculateRiskScore,
    sigX, pfDrawdown, featX, defaultLimits, approvedX,
    show (VolRegime.normal = VolRegime.extreme) = False from by decide,
    show (VolRegime.normal = VolRegime.high) = False from by decide,
    show (VolRegime.normal = VolRegime.elevated) = False from by decide,
    show (Urgency.medium = Urgency.high) = False from by decide]

lemma updateRiskState_peak :
    updateRiskState statePeak pfDrawdown = stateActive := by
  norm_num [updateRiskState, activateKillSwitch, statePeak, stateActive,
    pfDrawdown, defaultLimits]

lemma filterSignals_peak_eval :
    filterSignals statePeak [sigX] pfDrawdown featX = (stateActive, [approvedX]) := by
  rw [show filterSignals statePeak [sigX] pfDrawdown featX =
      (stateActive, applyPortfolioConstraints defaultLimits
        (List.filterMap (approveOne defaultLimits pfDrawdown featX) [sigX]) pfDrawdown) by
    unfold filterSignals
    rw [updateRiskState_peak]
    norm_num [statePeak, stateActive, checkGlobalRiskLimits, pfDrawdown, defaultLimits]]
  rw [show List.filterMap (approveOne defaultLimits pfDrawdown featX) [sigX] =
      [approvedX] by rw [List.filterMap_cons, approveOne_sigX]; rfl]
  unfold applyPortfolioConstraints
  norm_num [sortByKey, insertSorted, acceptLoop, approvedX, defaultLimits, pfDrawdown]

/-- The approval pipeline applied to the drawdown-breaching portfolio
approves the concrete long signal: the resulting list is nonempty. -/
lemma filterSignals_peak_nonempty :
    (filterSignals statePeak [sigX] pfDrawdown featX).2 ≠ [] := by
  rw [filterSignals_peak_eval]
  simp

/-- The same call arms the kill switch (drawdown 20% over the 15% limit). -/
lemma filterSignals_peak_killSwitch :
    (filterSignals statePeak [sigX] pfDrawdown featX).1.killSwitchActive = true := by
  rw [filterSignals_peak_eval]
  rfl

/-- Witness for C4: the single approved signal of the concrete run respects
the position cap. -/
theorem c4_approved_size_bounded_witness :
    (filterSignals statePeak [sigX] pfDrawdown featX).2.headI.approvedSize ≤
      statePeak.limits.maxPositionSize * pfDrawdown.totalValue :=
  (c4_approved_size_bounded statePeak [sigX] pfDrawdown featX _
    (headI_mem filterSignals_peak_nonempty)).1

/-! ### C10 -/

/-- C10: entering `filterSignals` with the kill switch off and a portfolio
breaching the drawdown limit arms the kill switch during the risk-state
update, yet the same call still returns a non-empty approval list; every
subsequent call on the updated state returns the empty list. -/
theorem c10_kill_switch_lags_one_call :
    (filterSignals statePeak [sigX] pfDrawdown featX).2 ≠ [] ∧
    (filterSignals statePeak [sigX] pfDrawdown featX).1.killSwitchActive = true ∧
    ∀ (signals' : List Signal) (pf' : Portfolio) (f' : StructuralFeatures),
      (filterSignals (filterSignals statePeak [sigX] pfDrawdown featX).1
        signals' pf' f').2 = [] := by
  refine ⟨filterSignals_peak_nonempty, filterSignals_peak_killSwitch,
    fun signals' pf' f' => ?_⟩
  rw [filterSignals_killSwitch _ signals' pf' f' filterSignals_peak_killSwitch]

/-! ## Regimes and strategy templates (from core/types.ts and StrategyPool) -/

inductive RegimeType
  | trending_bullish
  | trending_bearish
  | range_bound
  | breakout
  | breakdown
  | consolidation
  | high_volatility
  | low_volatility
  | gamma_squeeze
  | mean_reversion
deriving DecidableEq, Inhabited

inductive MarketPhase
  | accumulation
  | markup
  | distribution
  | markdown
deriving DecidableEq, Inhabited

structure RegimeCharacteristics where
  volatility : VolRegime
  trend : Trend
  momentum : ℚ
  marketPhase : MarketPhase
deriving DecidableEq, Inhabited

structure Regime where
  type : RegimeType
  confidence : ℚ
  duration : ℕ
  transitionProbability : ℚ
  characteristics : RegimeCharacteristics
deriving DecidableEq, Inhabited

/-- A strategy parameter map.  The three keys that `adaptParameters` rewrites
are modelled as optional named fields (absent key = `none`); all remaining
numeric entries ride along untouched in `others`. -/
structure StrategyParams where
  stopLoss : Option ℚ
  trailingStop : Option ℚ
  targetProfit : Option ℚ
  others : List (String × ℚ)
deriving DecidableEq, Inhabited

/-- Strategy template fields consumed by the verified components (name,
description, type tag and expected performance figures are inert data and
are omitted). -/
structure StrategyTemplate where
  id : String
  validRegimes : List RegimeType
  activationThreshold : ℚ
  parameters : StrategyParams
  timeframe : ℚ
deriving DecidableEq, Inhabited

/-- JS truthiness of an optional numeric parameter: present and nonzero. -/
def jsTruthy (o : Option ℚ) : Bool :=
  match o with
  | none => false
  | some v => decide (v ≠ 0)

/-- adaptParameters from `StrategyPool`: copy the template parameters and
scale stopLoss / trailingStop / targetProfit (when present and truthy) by the
volatility multiplier `high|extreme → 1.5, low → 0.7, else → 1.0`. -/
def adaptParameters (template : StrategyTemplate) (regime : Regime) : StrategyParams :=
  let volMultiplier : ℚ :=
    if regime.characteristics.volatility = VolRegime.high ∨
        regime.characteristics.volatility = VolRegime.extreme then 3/2
    else if regime.characteristics.volatility = VolRegime.low then 7/10
    else 1
  let params := template.parameters
  let params := if jsTruthy params.stopLoss then
      { params with stopLoss := params.stopLoss.map (fun v => v * volMultiplier) }
    else params
  let params := if jsTruthy params.trailingStop then
      { params with trailingStop := params.trailingStop.map (fun v => v * volMultiplier) }
    else params
  let params := if jsTruthy params.targetProfit then
      { params with targetProfit := params.targetProfit.map (fun v => v * volMultiplier) }
    else params
  params

/-- The multiplier table the code actually applies (per volatility label). -/
def strategyVolMultiplier (v : VolRegime) : ℚ :=
  match v with
  | VolRegime.high => 3/2
  | VolRegime.extreme => 3/2
  | VolRegime.low => 7/10
  | _ => 1

/-- Specification-style restatement of parameter adaptation: scale the three
stop/target keys uniformly by the volatility multiplier, leave everything
else unchanged. -/
def adaptParametersSpec (template : StrategyTemplate) (regime : Regime) : StrategyParams :=
  let m := strategyVolMultiplier regime.characteristics.volatility
  { stopLoss := template.parameters.stopLoss.map (fun v => v * m)
    trailingStop := template.parameters.trailingStop.map (fun v => v * m)
    targetProfit := template.parameters.targetProfit.map (fun v => v * m)
    others := template.parameters.others }

/-- The gamma-scalp default template (`gamma_scalp_v1`). -/
def gammaScalpTemplate : StrategyTemplate :=
  { id := "gamma_scalp_v1"
    validRegimes := [RegimeType.range_bound, RegimeType.low_volatility,
      RegimeType.consolidation]
    activationThreshold := 3/5
    parameters :=
      { stopLoss := some (3/1000), trailingStop := none
        targetProfit := some (1/200)
        others := [("minGammaConcentration", 3/10), ("maxHoldingPeriod", 30)] }
    timeframe := 5 }

/-- A concrete low-volatility regime. -/
def regimeLowVol : Regime :=
  { type := RegimeType.low_volatility
    confidence := 7/10
    duration := 1
    transitionProbability := 1/10
    characteristics :=
      { volatility := VolRegime.low, trend := Trend.sideways, momentum := 0
        marketPhase := MarketPhase.accumulation } }

/-! ### C6 -/

/-- Counterexample to C6 as stated: in a low-volatility regime the code
multiplies `stopLoss` by `0.7`, not by the claimed `1.2` (the claimed table
`1.2/1.0/0.8/0.5/0.25` is the position-sizing multiplier of risk governance,
not the strategy-parameter multiplier). -/
theorem c6_adapt_parameters_counterexample :
    (adaptParameters gammaScalpTemplate regimeLowVol).stopLoss = some (21/10000) ∧
    ¬ (adaptParameters gammaScalpTemplate regimeLowVol).stopLoss =
        some ((3/1000) * (6/5)) := by
  constructor <;>
    norm_num [adaptParameters, jsTruthy, gammaScalpTemplate, regimeLowVol,
      show (VolRegime.low = VolRegime.high) = False from by decide,
      show (VolRegime.low = VolRegime.extreme) = False from by decide]

/-- C6 (amended): the adapted parameter map equals the template parameters
with stopLoss, trailingStop and targetProfit multiplied by the volatility
multiplier `high → 1.5, extreme → 1.5, low → 0.7, normal/elevated → 1.0`
(the truthiness guard in the code is immaterial because scaling `0` keeps
`0`). -/
theorem c6_adapt_parameters_table (template : StrategyTemplate) (regime : Regime) :
    adaptParameters template regime = adaptParametersSpec template regime := by
  have hm : (if regime.characteristics.volatility = VolRegime.high ∨
        regime.characteristics.volatility = VolRegime.extreme then (3/2 : ℚ)
      else if regime.characteristics.volatility = VolRegime.low then 7/10
      else 1) = strategyVolMultiplier regime.characteristics.volatility := by
    rcases regime.characteristics.volatility <;> rfl
  unfold adaptParameters adaptParametersSpec
  rw [hm]
  rcases hp : template.parameters with ⟨sl, ts, tp, oth⟩
  dsimp only
  rcases sl with _ | v <;> rcases ts with _ | w <;> rcases tp with _ | u <;>
    simp only [jsTruthy, Option.map_none, Option.map_some, decide_eq_true_eq,
      Bool.false_eq_true, if_false, if_true, Option.map] <;>
    split_ifs <;>
    simp_all [StrategyParams.mk.injEq, zero_mul]

/-! ## Gravitational pull (from core/perception PerceptionMatrix) -/

/-- JS `Math.sign` on rationals. -/
def signQ (q : ℚ) : ℚ := if 0 < q then 1 else if q < 0 then -1 else 0

/-- The attractor scan of calculateGravitationalPull: row-major over
expiries × strikes, keeping every cell whose absolute gamma exceeds 10% of
the surface's gamma range (out-of-range index reads, which cannot occur on a
well-formed surface, default to `0` / the empty row). -/
def gatherAttractors (surface : GammaSurface) : List Attractor :=
  (List.range surface.expiries.length).flatMap fun e =>
    let row := surface.values.getD e []
    (List.range row.length).filterMap fun s =>
      let gamma := row.getD s 0
      let strike := surface.strikes.getD s 0
      if |gamma| > |surface.maxGamma - surface.minGamma| * (1/10) then
        some { price := strike, strength := gamma }
      else none

/-- One step of the net-pull accumulation: skip attractors at the spot price,
otherwise add the inverse-square pull. -/
def pullStep (spotPrice : ℚ) (acc : ℚ × ℚ) (attractor : Attractor) : ℚ × ℚ :=
  let distance := attractor.price - spotPrice
  if distance ≠ 0 then
    let pull := attractor.strength / (distance * distance)
    (acc.1 + |pull|, acc.2 + pull * signQ distance)
  else acc

/-- The `(totalPull, weightedSum)` accumulators of calculateGravitationalPull. -/
def pullTotals (spotPrice : ℚ) (attractors : List Attractor) : ℚ × ℚ :=
  attractors.foldl (pullStep spotPrice) (0, 0)

/-- calculateGravitationalPull. -/
def calculateGravitationalPull (surface : GammaSurface) (spotPrice : ℚ) :
    GravitationalPull :=
  let attractors := gatherAttractors surface
  let totals := pullTotals spotPrice attractors
  let totalPull := totals.1
  let weightedSum := totals.2
  let direction : ℚ := if weightedSum > 0 then 1 else if weightedSum < 0 then -1 else 0
  let magnitude := min (|weightedSum| / (if totalPull = 0 then 1 else totalPull)) 1
  { direction := direction
    magnitude := magnitude
    attractors := attractors.take 10 }

lemma abs_signQ_of_ne (d : ℚ) (hd : d ≠ 0) : |signQ d| = 1 := by
  unfold signQ
  rcases lt_trichotomy 0 d with h | h | h
  · rw [if_pos h]
    norm_num
  · exact absurd h.symm hd
  · rw [if_neg (by linarith), if_pos h]
    norm_num

lemma pullTotals_invariant (spotPrice : ℚ) (l : List Attractor) (acc : ℚ × ℚ)
    (h1 : 0 ≤ acc.1) (h2 : |acc.2| ≤ acc.1) :
    0 ≤ (l.foldl (pullStep spotPrice) acc).1 ∧
      |(l.foldl (pullStep spotPrice) acc).2| ≤ (l.foldl (pullStep spotPrice) acc).1 := by
  induction l generalizing acc with
  | nil => exact ⟨h1, h2⟩
  | cons a rest ih =>
    rw [List.foldl_cons]
    apply ih
    all_goals
      unfold pullStep
      dsimp only
      split_ifs with hd
    · have := abs_nonneg (a.strength / ((a.price - spotPrice) * (a.price - spotPrice)))
      linarith
    · exact h1
    · calc |acc.2 + a.strength / ((a.price - spotPrice) * (a.price - spotPrice)) *
            signQ (a.price - spotPrice)|
          ≤ |acc.2| + |a.strength / ((a.price - spotPrice) * (a.price - spotPrice)) *
            signQ (a.price - spotPrice)| := abs_add _ _
        _ = |acc.2| + |a.strength / ((a.price - spotPrice) * (a.price - spotPrice))| *
            |signQ (a.price - spotPrice)| := by rw [abs_mul]
        _ = |acc.2| + |a.strength / ((a.price - spotPrice) * (a.price - spotPrice))| := by
            rw [abs_signQ_of_ne _ hd, mul_one]
        _ ≤ acc.1 + |a.strength / ((a.price - spotPrice) * (a.price - spotPrice))| := by
            linarith
    · exact h2

/-! ### C7 -/

/-- C7 (amended): the returned attractors are the **first** (at most) ten
qualifying cells in row-major scan order — not the ten strongest; the count
is at most 10, the direction is in `{−1, 0, +1}` and the magnitude is in
`[0, 1]`. -/
theorem c7_gravitational_pull_shape (surface : GammaSurface) (spotPrice : ℚ) :
    (calculateGravitationalPull surface spotPrice).attractors =
      (gatherAttractors surface).take 10 ∧
    (calculateGravitationalPull surface spotPrice).attractors.length ≤ 10 ∧
    ((calculateGravitationalPull surface spotPrice).direction = -1 ∨
      (calculateGravitationalPull surface spotPrice).direction = 0 ∨
      (calculateGravitationalPull surface spotPrice).direction = 1) ∧
    0 ≤ (calculateGravitationalPull surface spotPrice).magnitude ∧
    (calculateGravitationalPull surface spotPrice).magnitude ≤ 1 := by
  obtain ⟨ht, hb⟩ := pullTotals_invariant spotPrice (gatherAttractors surface) (0, 0)
    le_rfl (by norm_num)
  unfold calculateGravitationalPull
  dsimp only
  refine ⟨rfl, ?_, ?_, ?_, ?_⟩
  · rw [List.length_take]
    omega
  · split_ifs <;> simp
  · apply le_min
    · apply div_nonneg (abs_nonneg _)
      split_ifs with h0
      · norm_num
      · exact le_of_lt (lt_of_le_of_ne ht (Ne.symm h0))
    · norm_num
  · exact min_le_right _ _

/-- The surface used to refute the "ten strongest" reading: one expiry,
twelve strikes, the twelfth cell far stronger than the first eleven. -/
def surfaceC7 : GammaSurface :=
  { strikes := [1, 2, 3, 4, 5, 6, 7, 8, 9, 10, 11, 12]
    expiries := [30]
    values := [[50, 50, 50, 50, 50, 50, 50, 50, 50, 50, 50, 100]]
    maxGamma := 100
    minGamma := 50
    netGamma := 650 }

lemma gatherAttractors_surfaceC7 :
    gatherAttractors surfaceC7 =
      [⟨1, 50⟩, ⟨2, 50⟩, ⟨3, 50⟩, ⟨4, 50⟩, ⟨5, 50⟩, ⟨6, 50⟩, ⟨7, 50⟩, ⟨8, 50⟩,
        ⟨9, 50⟩, ⟨10, 50⟩, ⟨11, 50⟩, ⟨12, 100⟩] := by
  have h5 : |surfaceC7.maxGamma - surfaceC7.minGamma| * (1/10) = 5 := by
    norm_num [surfaceC7]
  unfold gatherAttractors
  simp only [h5]
  decide

/-- Counterexample to C7 as stated: the strongest qualifying attractor
(strike 12, strength 100) is dropped by the `slice(0, 10)` because the list
is never sorted by strength — the kept ten are the first ten in scan order,
all weaker. -/
theorem c7_gravitational_pull_counterexample :
    (⟨12, 100⟩ : Attractor) ∈ gatherAttractors surfaceC7 ∧
    (⟨12, 100⟩ : Attractor) ∉ (calculateGravitationalPull surfaceC7 0).attractors ∧
    ∀ a ∈ (calculateGravitationalPull surfaceC7 0).attractors, a.strength < 100 := by
  have h : (calculateGravitationalPull surfaceC7 0).attractors =
      ([⟨1, 50⟩, ⟨2, 50⟩, ⟨3, 50⟩, ⟨4, 50⟩, ⟨5, 50⟩, ⟨6, 50⟩, ⟨7, 50⟩, ⟨8, 50⟩,
        ⟨9, 50⟩, ⟨10, 50⟩] : List Attractor) := by
    unfold calculateGravitationalPull
    dsimp only
    rw [gatherAttractors_surfaceC7]
    rfl
  refine ⟨?_, ?_, ?_⟩
  · rw [gatherAttractors_surfaceC7]
    norm_num
  · rw [h]
    norm_num
  · rw [h]
    intro a ha
    fin_cases ha <;> norm_num

/-! ## Gamma surface aggregation (from core/perception PerceptionMatrix)

The claim under test is specifically about IEEE infinities, so the
max/min accumulators are modelled with an explicit extended-number type
capturing the source's `-Infinity` / `Infinity` seeds. -/

/-- A JS number restricted to the values reachable by the max/min
accumulators: a finite rational or one of the two infinities. -/
inductive JNum
  | ninf
  | num (q : ℚ)
  | pinf
deriving DecidableEq

/-- JS `<` on the extended numbers (no NaN can arise here). -/
def JNum.ltJ : JNum → JNum → Bool
  | JNum.ninf, JNum.ninf => false
  | JNum.ninf, _ => true
  | JNum.num _, JNum.ninf => false
  | JNum.num a, JNum.num b => decide (a < b)
  | JNum.num _, JNum.pinf => true
  | JNum.pinf, _ => false

/-- Whether an extended number is finite. -/
def JNum.isFiniteJ : JNum → Bool
  | JNum.num _ => true
  | _ => false

/-- Option-chain entry fields consumed by the gamma surface (bid/ask/last,
volume, delta, theta, vega, rho and the call/put tag feed other perception
components and are omitted here). -/
structure OptionData where
  strike : ℚ
  expiry : ℚ
  gamma : ℚ
  openInterest : ℚ
deriving DecidableEq

/-- `[...new Set(xs)].sort((a, b) => a - b)`: first occurrences, sorted
ascending. -/
def uniqueSorted (l : List ℚ) : List ℚ :=
  sortByKey (fun q => q) l.dedup

/-- Gamma mass of one `[expiry][strike]` cell:
`Σ gamma · openInterest · 100` over the options at that strike/expiry. -/
def cellGamma (chain : List OptionData) (strike expiry : ℚ) : ℚ :=
  ((chain.filter fun o => decide (o.strike = strike) && decide (o.expiry = expiry)).map
    fun o => o.gamma * o.openInterest * 100).sum

/-- The per-cell accumulation of `(maxGamma, minGamma, netGamma)`, seeded
with `(-Infinity, Infinity, 0)` exactly as the source does. -/
def surfaceFold (cells : List ℚ) : JNum × JNum × ℚ :=
  cells.foldl
    (fun acc g =>
      let mx := if JNum.ltJ acc.1 (JNum.num g) then JNum.num g else acc.1
      let mn := if JNum.ltJ (JNum.num g) acc.2.1 then JNum.num g else acc.2.1
      (mx, mn, acc.2.2 + g))
    (JNum.ninf, JNum.pinf, 0)

/-- The gamma surface with infinity-aware aggregates. -/
structure GammaSurfaceX where
  strikes : List ℚ
  expiries : List ℚ
  values : List (List ℚ)
  maxGamma : JNum
  minGamma : JNum
  netGamma : ℚ
deriving DecidableEq

/-- calculateGammaSurface (the `spotPrice` parameter is accepted and unused,
as in the source). -/
def calculateGammaSurfaceX (optionsChain : List OptionData) (_spotPrice : ℚ) :
    GammaSurfaceX :=
  let strikes := uniqueSorted (optionsChain.map fun o => o.strike)
  let expiries := uniqueSorted (optionsChain.map fun o => o.expiry)
  let values := expiries.map fun expiry =>
    strikes.map fun strike => cellGamma optionsChain strike expiry
  let acc := surfaceFold values.flatten
  { strikes := strikes
    expiries := expiries
    values := values
    maxGamma := acc.1
    minGamma := acc.2.1
    netGamma := acc.2.2 }

/-! ### C8 -/

/-- C8 is violated by the code: on a bundle with an **empty options chain**
the loops never run, so `maxGamma` stays `-Infinity` and `minGamma` stays
`Infinity`, and these non-finite aggregates are emitted unsanitized in the
produced structural features / system state. -/
theorem c8_empty_chain_nonfinite_aggregates :
    (calculateGammaSurfaceX [] 100).maxGamma = JNum.ninf ∧
    (calculateGammaSurfaceX [] 100).minGamma = JNum.pinf ∧
    (calculateGammaSurfaceX [] 100).maxGamma.isFiniteJ = false ∧
    (calculateGammaSurfaceX [] 100).minGamma.isFiniteJ = false := by
  refine ⟨rfl, rfl, rfl, rfl⟩

/-! ## Fractal memory (from core/execution FractalMemory)

JS `Map`s are association lists keeping insertion order: `set` replaces in
place or appends, `delete` filters.  The two fixed `byOutcome` buckets are
the fields `byOutcomePos` / `byOutcomeNeg`.  `Date.now()` and the random id
are explicit `now` / `newId` parameters. -/

def mapGet {κ ν : Type} [DecidableEq κ] (m : List (κ × ν)) (k : κ) : Option ν :=
  (m.find? fun p => decide (p.1 = k)).map fun p => p.2

def mapSet {κ ν : Type} [DecidableEq κ] (m : List (κ × ν)) (k : κ) (v : ν) :
    List (κ × ν) :=
  if m.any (fun p => decide (p.1 = k)) then
    m.map fun p => if p.1 = k then (k, v) else p
  else m ++ [(k, v)]

def mapDelete {κ ν : Type} [DecidableEq κ] (m : List (κ × ν)) (k : κ) :
    List (κ × ν) :=
  m.filter fun p => !(decide (p.1 = k))

/-- Trade-outcome fields consumed by the memory (the full outcome record
carries many more inert statistics). -/
structure TradeOutcome where
  pnl : ℚ
  pnlPercent : ℚ
  holdingPeriod : ℚ
deriving DecidableEq

structure HistoricalPattern where
  id : String
  timestamp : ℕ
  structuralFingerprint : List ℚ
  outcome : TradeOutcome
  regime : Regime
  similarity : ℚ
deriving DecidableEq

structure PatternFingerprint where
  features : List ℚ
  timestamp : ℕ
  regime : RegimeType
deriving DecidableEq

structure FractalMemory where
  patterns : List (String × HistoricalPattern)
  fingerprints : List (String × PatternFingerprint)
  recentPatterns : CircularBuffer String
  byRegime : List (RegimeType × List String)
  byOutcomePos : List String
  byOutcomeNeg : List String
  byTimeframe : List (ℕ × List String)
  maxPatterns : ℕ

/-- `new FractalMemory(maxPatterns)`. -/
def FractalMemory.emptyMemory (cap : ℕ) : FractalMemory :=
  { patterns := [], fingerprints := []
    recentPatterns := CircularBuffer.empty String 1000
    byRegime := [], byOutcomePos := [], byOutcomeNeg := [], byTimeframe := []
    maxPatterns := cap }

/-- createFingerprint: the 13-dimensional min-max-normalized feature vector. -/
def createFingerprint (features : StructuralFeatures) (regime : Regime)
    (now : ℕ) : PatternFingerprint :=
  { features := normalizeArr
      [features.priceHistory.momentum
      , features.priceHistory.trendStrength
      , features.volatilityRegime.impliedVol / 100
      , features.volatilityRegime.volSpread / 100
      , features.volatilityRegime.skew / 100
      , features.gammaPull.direction
      , features.gammaPull.magnitude
      , features.liquidityMap.imbalance
      , features.liquidityMap.absorptionRate
      , features.dealerPositioning.hedgingPressure
      , features.dealerPositioning.confidence
      , regime.confidence
      , regime.transitionProbability]
    timestamp := now
    regime := regime.type }

/-- updateIndices: append the id to its regime, outcome-sign and hour
buckets. -/
def updateIndices (m : FractalMemory) (patternId : String)
    (pattern : HistoricalPattern) (fingerprint : PatternFingerprint) :
    FractalMemory :=
  let regimePatterns := (mapGet m.byRegime fingerprint.regime).getD []
  let m :=
    { m with byRegime := mapSet m.byRegime fingerprint.regime (regimePatterns ++ [patternId]) }
  let m := if pattern.outcome.pnl ≥ 0 then
      { m with byOutcomePos := m.byOutcomePos ++ [patternId] }
    else { m with byOutcomeNeg := m.byOutcomeNeg ++ [patternId] }
  let timeframe := fingerprint.timestamp / 3600000
  let timeframePatterns := (mapGet m.byTimeframe timeframe).getD []
  { m with byTimeframe := mapSet m.byTimeframe timeframe (timeframePatterns ++ [patternId]) }

/-- removePattern: drop the pattern and fingerprint and splice the id out of
the regime and outcome buckets.  Faithful to the source, the **timeframe
bucket is not touched**. -/
def removePattern (m : FractalMemory) (patternId : String) : FractalMemory :=
  match mapGet m.patterns patternId, mapGet m.fingerprints patternId with
  | some pattern, some fingerprint =>
    let m := { m with
      patterns := mapDelete m.patterns patternId,
      fingerprints := mapDelete m.fingerprints patternId }
    let m :=
      { m with byRegime := m.byRegime.map fun (p : RegimeType × List String) =>
          if p.1 = fingerprint.regime then (p.1, p.2.erase patternId) else p }
    if pattern.outcome.pnl ≥ 0 then
      { m with byOutcomePos := m.byOutcomePos.erase patternId }
    else { m with byOutcomeNeg := m.byOutcomeNeg.erase patternId }
  | _, _ => m

/-- cleanup: evict oldest-by-timestamp patterns until within capacity. -/
def cleanup (m : FractalMemory) : FractalMemory :=
  let sortedPatterns := sortByKey (fun p => (p.2.timestamp : ℚ)) m.patterns
  let toRemove := sortedPatterns.take (m.patterns.length - m.maxPatterns)
  toRemove.foldl (fun acc p => removePattern acc p.1) m

/-- storePattern. -/
def storePattern (m : FractalMemory) (features : StructuralFeatures)
    (outcome : TradeOutcome) (regime : Regime) (newId : String) (now : ℕ) :
    FractalMemory × String :=
  let fingerprint := createFingerprint features regime now
  let pattern : HistoricalPattern :=
    { id := newId, timestamp := now, structuralFingerprint := fingerprint.features
      outcome := outcome, regime := regime, similarity := 1 }
  let m := { m with
    patterns := mapSet m.patterns newId pattern,
    fingerprints := mapSet m.fingerprints newId fingerprint,
    recentPatterns := m.recentPatterns.add newId }
  let m := updateIndices m newId pattern fingerprint
  let m := if m.patterns.length > m.maxPatterns then cleanup m else m
  (m, newId)

/-- A winning trade outcome. -/
def outcomeX : TradeOutcome :=
  { pnl := 5, pnlPercent := 1/100, holdingPeriod := 60000 }

/-- The memory after storing two patterns into a capacity-1 store:
`"p1"` at time 1000, then `"p2"` at time 2000 (same hour bucket). -/
def memoryC5 : FractalMemory :=
  (storePattern
    (storePattern (FractalMemory.emptyMemory 1) featX outcomeX regimeLowVol
      "p1" 1000).1
    featX outcomeX regimeLowVol "p2" 2000).1

/-! ### C5 -/

/-- C5 is violated by the code: after a capacity eviction the evicted id is
removed from the regime and outcome buckets but **stays in the by-timeframe
bucket**, which then references a pattern absent from the store.  Concretely,
storing `"p1"` then `"p2"` into a capacity-1 memory evicts `"p1"`, yet hour
bucket 0 still lists it. -/
theorem c5_timeframe_index_stale :
    memoryC5.patterns.map Prod.fst = ["p2"] ∧
    mapGet memoryC5.patterns "p1" = none ∧
    (mapGet memoryC5.byTimeframe 0).getD [] = ["p1", "p2"] ∧
    "p1" ∈ (mapGet memoryC5.byTimeframe 0).getD [] := by
  have h : memoryC5.patterns.map Prod.fst = ["p2"] ∧
      (mapGet memoryC5.byTimeframe 0).getD [] = ["p1", "p2"] := by
    norm_num [memoryC5, storePattern, createFingerprint, updateIndices, cleanup,
      removePattern, mapSet, mapGet, mapDelete, sortByKey, insertSorted,
      FractalMemory.emptyMemory, featX, regimeLowVol, outcomeX,
      show ("p1" = "p2") = False from by decide,
      show ("p2" = "p1") = False from by decide]
  refine ⟨h.1, ?_, h.2, ?_⟩
  · have h1 := h.1
    rcases hm : memoryC5.patterns with _ | ⟨p, rest⟩
    · simp [mapGet]
    · rw [hm] at h1
      simp only [List.map_cons] at h1
      rcases rest with _ | _
      · simp only [List.map_nil] at h1
        obtain ⟨hp, -⟩ := List.cons.inj h1
        simp [mapGet, hp, List.find?]
      · simp at h1
  · rw [h.2]
    norm_num

/-! ## Coherence (from core/meta-controller MetaController)

The buffers of `MetaController` are represented by their in-order contents
(`toArray` views): the momentum and volatility feature buffers and the
stored regime-history feature vectors, which are all that
`calculateCoherence` reads.  Sub-scores whose arithmetic is purely rational
are computed in `ℚ` and cast; the standard deviation, cosine similarity and
sigmoid live in `ℝ`. -/

/-- clamp on the reals (same `Math.min(Math.max(…))` shape). -/
noncomputable def clampR (value lo hi : ℝ) : ℝ := min (max value lo) hi

/-- JS `slice(-n)`: the last `n` elements (all of them when shorter). -/
def lastN {α : Type} (l : List α) (n : ℕ) : List α := l.drop (l.length - n)

structure MetaState where
  momentumHistory : List ℚ
  volatilityHistory : List ℚ
  regimeHistory : List (List ℚ)

/-- An active strategy as consumed by coherence: its template (for the
valid-regime check) and its current signal, `none` when null. -/
structure ActiveStrategy where
  template : StrategyTemplate
  currentSignal : Option Signal

/-- extractRegimeFeatures: `Object.values` of the feature record, in
insertion order. -/
def extractRegimeFeatures (f : StructuralFeatures) : List ℚ :=
  [f.priceHistory.momentum
  , f.priceHistory.trendStrength
  , f.volatilityRegime.impliedVol / 100
  , f.volatilityRegime.volOfVol
  , f.volatilityRegime.volSpread / 100
  , f.volatilityRegime.skew / 100
  , f.gammaPull.direction
  , f.gammaPull.magnitude
  , f.liquidityMap.imbalance
  , f.liquidityMap.absorptionRate]

/-- calculateStructuralConsistency: the average of the four alignment
checks (full credit, and half credit for the two soft checks). -/
def calculateStructuralConsistency (f : StructuralFeatures) : ℚ :=
  let gammaTrendAlign :=
    (f.gammaPull.direction > 0 ∧ f.priceHistory.trend = Trend.up) ∨
    (f.gammaPull.direction < 0 ∧ f.priceHistory.trend = Trend.down) ∨
    (f.gammaPull.direction = 0 ∧ f.priceHistory.trend = Trend.sideways)
  let liquidityMomentumAlign :=
    (f.liquidityMap.imbalance > 0 ∧ f.priceHistory.momentum > 0) ∨
    (f.liquidityMap.imbalance < 0 ∧ f.priceHistory.momentum < 0)
  let dealerFlowAlign :=
    (f.dealerPositioning.flowDirection = FlowDirection.buying ∧
      f.priceHistory.trend = Trend.up) ∨
    (f.dealerPositioning.flowDirection = FlowDirection.selling ∧
      f.priceHistory.trend = Trend.down) ∨
    f.dealerPositioning.flowDirection = FlowDirection.neutral
  let hedgingVolAlign :=
    ((|f.dealerPositioning.hedgingPressure| > 1/2) ↔
      f.volatilityRegime.regime ≠ VolRegime.low)
  ((if gammaTrendAlign then 1 else 0) +
    (if liquidityMomentumAlign then 1 else 1/2) +
    (if dealerFlowAlign then 1 else 0) +
    (if hedgingVolAlign then 1 else 1/2)) / 4

/-- calculateRegimeAlignment: fraction of active strategies whose valid
regimes contain the current regime; `0.5` when none are active. -/
def calculateRegimeAlignment (regime : Regime)
    (activeStrategies : List ActiveStrategy) : ℚ :=
  if activeStrategies.length = 0 then 1/2
  else
    ((activeStrategies.filter fun s =>
        decide (regime.type ∈ s.template.validRegimes)).length : ℚ) /
      (activeStrategies.length : ℚ)

/-- calculateTemporalConsistency. -/
noncomputable def calculateTemporalConsistency (st : MetaState) : ℝ :=
  if st.momentumHistory.length < 5 then 1/2
  else
    let recentMomentum := lastN st.momentumHistory 20
    let momentumConsistency := 1 - clampR (standardDeviation recentMomentum * 10) 0 1
    let recentVol := lastN st.volatilityHistory 20
    let volConsistency := 1 - clampR (standardDeviation recentVol * 5) 0 1
    (momentumConsistency + volConsistency) / 2

/-- The running-maximum scan over historical similarity scores. -/
noncomputable def maxSimilarityFold (current : List ℚ)
    (history : List (List ℚ)) : ℝ :=
  history.foldl
    (fun maxSim historical =>
      if cosineSimilarity current historical > maxSim then
        cosineSimilarity current historical
      else maxSim)
    0

/-- calculateFractalSimilarity: maximum cosine similarity between the
current feature vector and the last 50 stored ones; `0.5` with little
history. -/
noncomputable def calculateFractalSimilarity (st : MetaState)
    (f : StructuralFeatures) : ℝ :=
  if st.regimeHistory.length < 10 then 1/2
  else maxSimilarityFold (extractRegimeFeatures f) (lastN st.regimeHistory 50)

/-- calculateSignalConvergence: largest directional agreement among the
non-null signals; `0.5` with fewer than two strategies or signals. -/
def calculateSignalConvergence (activeStrategies : List ActiveStrategy) : ℚ :=
  if activeStrategies.length < 2 then 1/2
  else
    let signals := activeStrategies.filterMap fun s => s.currentSignal
    if signals.length < 2 then 1/2
    else
      let longCount := (signals.filter fun s =>
        decide (s.direction = SignalDirection.long)).length
      let shortCount := (signals.filter fun s =>
        decide (s.direction = SignalDirection.short)).length
      let neutralCount := (signals.filter fun s =>
        decide (s.direction = SignalDirection.neutral)).length
      let maxCount := max longCount (max shortCount neutralCount)
      (maxCount : ℚ) / (signals.length : ℚ)

structure CoherenceComponents where
  marketSystemAlignment : ℝ
  signalConsistency : ℝ
  timeframeHarmony : ℝ
  patternRecognition : ℝ

structure CoherenceScore where
  total : ℝ
  confidence : ℝ
  structural : ℝ
  regime : ℝ
  temporal : ℝ
  fractal : ℝ
  convergence : ℝ
  components : CoherenceComponents

/-- calculateCoherence (the append of `total` onto the coherence history is
a state write not read back by this function and is dropped here). -/
noncomputable def calculateCoherence (st : MetaState) (f : StructuralFeatures)
    (regime : Regime) (activeStrategies : List ActiveStrategy) : CoherenceScore :=
  let structural : ℝ := ((calculateStructuralConsistency f : ℚ) : ℝ)
  let regimeAlignment : ℝ := ((calculateRegimeAlignment regime activeStrategies : ℚ) : ℝ)
  let temporal := calculateTemporalConsistency st
  let fractal := calculateFractalSimilarity st f
  let convergence : ℝ := ((calculateSignalConvergence activeStrategies : ℚ) : ℝ)
  let total := (3/10) * structural + (25/100) * regimeAlignment +
    (2/10) * temporal + (15/100) * fractal + (1/10) * convergence
  let confidence := sigmoid (total * 2 - 1)
  { total := total
    confidence := confidence
    structural := structural
    regime := regimeAlignment
    temporal := temporal
    fractal := fractal
    convergence := convergence
    components :=
      { marketSystemAlignment := (structural + regimeAlignment) / 2
        signalConsistency := convergence
        timeframeHarmony := temporal
        patternRecognition := fractal } }

/-! ### Bounds on the coherence sub-scores -/

lemma normSq_nonneg (l : List ℚ) : 0 ≤ normSq l := by
  unfold normSq
  apply List.sum_nonneg
  intro x hx
  obtain ⟨y, -, rfl⟩ := List.mem_map.mp hx
  exact mul_self_nonneg y

/-- Cauchy–Schwarz for the list dot product, in the exact shape produced by
the `cosineSimilarity` accumulators. -/
lemma dotQ_sq_le (a b : List ℚ) : dotQ a b * dotQ a b ≤ normSq a * normSq b := by
  induction a generalizing b with
  | nil =>
    simp [dotQ, normSq]
  | cons x xs ih =>
    rcases b with _ | ⟨y, ys⟩
    · simp [dotQ, normSq]
    · have hA := normSq_nonneg xs
      have hB := normSq_nonneg ys
      have hd := ih ys
      have hxy : dotQ (x :: xs) (y :: ys) = x * y + dotQ xs ys := rfl
      have hna : normSq (x :: xs) = x * x + normSq xs := by
        unfold normSq
        simp
      have hnb : normSq (y :: ys) = y * y + normSq ys := by
        unfold normSq
        simp
      rw [hxy, hna, hnb]
      rcases eq_or_lt_of_le hA with hA0 | hApos
      · have hd0 : dotQ xs ys = 0 := by nlinarith [sq_nonneg (dotQ xs ys)]
        rw [hd0, ← hA0]
        nlinarith [mul_nonneg (mul_self_nonneg x) hB]
      · set d := dotQ xs ys
        set A := normSq xs
        set B := normSq ys
        have key : A * ((x * x + A) * (y * y + B) - (x * y + d) * (x * y + d)) =
            (x * d - y * A) ^ 2 + (x * x + A) * (A * B - d * d) := by ring
        have hr : 0 ≤ (x * d - y * A) ^ 2 + (x * x + A) * (A * B - d * d) :=
          add_nonneg (sq_nonneg _)
            (mul_nonneg (by nlinarith [mul_self_nonneg x]) (by linarith))
        nlinarith [key, hr, hApos]

/-- The cosine similarity never exceeds `1`. -/
lemma cosineSimilarity_le_one (a b : List ℚ) : cosineSimilarity a b ≤ 1 := by
  unfold cosineSimilarity
  split_ifs with h1 h2
  · norm_num
  · norm_num
  · push_neg at h2
    obtain ⟨hA0, hB0⟩ := h2
    have hA : (0 : ℚ) < normSq a := lt_of_le_of_ne (normSq_nonneg a) (Ne.symm hA0)
    have hB : (0 : ℚ) < normSq b := lt_of_le_of_ne (normSq_nonneg b) (Ne.symm hB0)
    have hAr : (0 : ℝ) < ((normSq a : ℚ) : ℝ) := by exact_mod_cast hA
    have hBr : (0 : ℝ) < ((normSq b : ℚ) : ℝ) := by exact_mod_cast hB
    have hden : (0 : ℝ) < Real.sqrt ((normSq a : ℚ) : ℝ) * Real.sqrt ((normSq b : ℚ) : ℝ) :=
      mul_pos (Real.sqrt_pos.mpr hAr) (Real.sqrt_pos.mpr hBr)
    rw [div_le_one hden]
    have hcs : ((dotQ a b : ℚ) : ℝ) ^ 2 ≤ ((normSq a : ℚ) : ℝ) * ((normSq b : ℚ) : ℝ) := by
      have := dotQ_sq_le a b
      have h2 : (dotQ a b : ℚ) * dotQ a b = (dotQ a b : ℚ) ^ 2 := by ring
      rw [h2] at this
      exact_mod_cast this
    calc ((dotQ a b : ℚ) : ℝ)
        ≤ |((dotQ a b : ℚ) : ℝ)| := le_abs_self _
      _ = Real.sqrt (((dotQ a b : ℚ) : ℝ) ^ 2) := (Real.sqrt_sq_eq_abs _).symm
      _ ≤ Real.sqrt (((normSq a : ℚ) : ℝ) * ((normSq b : ℚ) : ℝ)) :=
          Real.sqrt_le_sqrt hcs
      _ = Real.sqrt ((normSq a : ℚ) : ℝ) * Real.sqrt ((normSq b : ℚ) : ℝ) :=
          Real.sqrt_mul hAr.le _

lemma structuralConsistency_mem (f : StructuralFeatures) :
    0 ≤ calculateStructuralConsistency f ∧ calculateStructuralConsistency f ≤ 1 := by
  unfold calculateStructuralConsistency
  dsimp only
  split_ifs <;> norm_num

lemma regimeAlignment_mem (regime : Regime) (strategies : List ActiveStrategy) :
    0 ≤ calculateRegimeAlignment regime strategies ∧
      calculateRegimeAlignment regime strategies ≤ 1 := by
  unfold calculateRegimeAlignment
  split_ifs with h
  · norm_num
  · have hlen : 0 < (strategies.length : ℚ) := by
      have : 0 < strategies.length := Nat.pos_of_ne_zero h
      exact_mod_cast this
    constructor
    · positivity
    · rw [div_le_one hlen]
      have := List.length_filter_le
        (fun s => decide (regime.type ∈ s.template.validRegimes)) strategies
      exact_mod_cast this

lemma clampR_mem (v lo hi : ℝ) (h1 : lo ≤ hi) (h2 : 0 ≤ lo) :
    lo ≤ clampR v lo hi ∧ clampR v lo hi ≤ hi := by
  unfold clampR
  constructor
  · exact le_min (le_max_right _ _) h1
  · exact min_le_right _ _

lemma temporal_mem (st : MetaState) :
    0 ≤ calculateTemporalConsistency st ∧ calculateTemporalConsistency st ≤ 1 := by
  unfold calculateTemporalConsistency
  split_ifs with h
  · norm_num
  · dsimp only
    obtain ⟨hm1, hm2⟩ := clampR_mem (standardDeviation (lastN st.momentumHistory 20) * 10)
      0 1 (by norm_num) le_rfl
    obtain ⟨hv1, hv2⟩ := clampR_mem (standardDeviation (lastN st.volatilityHistory 20) * 5)
      0 1 (by norm_num) le_rfl
    constructor <;> [linarith; linarith]

lemma maxSimilarityFold_mem (current : List ℚ) (history : List (List ℚ)) :
    0 ≤ maxSimilarityFold current history ∧ maxSimilarityFold current history ≤ 1 := by
  unfold maxSimilarityFold
  suffices h : ∀ (l : List (List ℚ)) (acc : ℝ), 0 ≤ acc → acc ≤ 1 →
      0 ≤ l.foldl (fun maxSim historical =>
        if cosineSimilarity current historical > maxSim then
          cosineSimilarity current historical else maxSim) acc ∧
      l.foldl (fun maxSim historical =>
        if cosineSimilarity current historical > maxSim then
          cosineSimilarity current historical else maxSim) acc ≤ 1 by
    exact h history 0 le_rfl (by norm_num)
  intro l
  induction l with
  | nil => exact fun acc h0 h1 => ⟨h0, h1⟩
  | cons hd tl ih =>
    intro acc h0 h1
    rw [List.foldl_cons]
    apply ih
    · split_ifs with hgt
      · linarith
      · exact h0
    · split_ifs with hgt
      · exact cosineSimilarity_le_one current hd
      · exact h1

lemma fractal_mem (st : MetaState) (f : StructuralFeatures) :
    0 ≤ calculateFractalSimilarity st f ∧ calculateFractalSimilarity st f ≤ 1 := by
  unfold calculateFractalSimilarity
  split_ifs with h
  · norm_num
  · exact maxSimilarityFold_mem _ _

lemma convergence_mem (strategies : List ActiveStrategy) :
    0 ≤ calculateSignalConvergence strategies ∧
      calculateSignalConvergence strategies ≤ 1 := by
  unfold calculateSignalConvergence
  dsimp only
  split_ifs with h1 h2
  · norm_num
  · norm_num
  · set signals := strategies.filterMap fun s => s.currentSignal with hs
    have hlen : 0 < (signals.length : ℚ) := by
      have : 0 < signals.length := by omega
      exact_mod_cast this
    constructor
    · positivity
    · rw [div_le_one hlen]
      have hl := List.length_filter_le
        (fun s => decide (s.direction = SignalDirection.long)) signals
      have hsh := List.length_filter_le
        (fun s => decide (s.direction = SignalDirection.short)) signals
      have hn := List.length_filter_le
        (fun s => decide (s.direction = SignalDirection.neutral)) signals
      have : max ((signals.filter fun s =>
            decide (s.direction = SignalDirection.long)).length)
          (max ((signals.filter fun s =>
            decide (s.direction = SignalDirection.short)).length)
            ((signals.filter fun s =>
            decide (s.direction = SignalDirection.neutral)).length)) ≤
          signals.length := by omega
      exact_mod_cast this

/-! ### C3 -/

/-- C3: every coherence sub-score (structural, regime alignment, temporal,
fractal, convergence) lies in `[0, 1]`; the total equals
`0.30·s + 0.25·r + 0.20·t + 0.15·f + 0.10·c` within `1e-9` (in fact
exactly); and the confidence is `sigmoid (2·total − 1)`. -/
theorem c3_coherence_composition (st : MetaState) (f : StructuralFeatures)
    (regime : Regime) (strategies : List ActiveStrategy) :
    (0 ≤ (calculateCoherence st f regime strategies).structural ∧
      (calculateCoherence st f regime strategies).structural ≤ 1) ∧
    (0 ≤ (calculateCoherence st f regime strategies).regime ∧
      (calculateCoherence st f regime strategies).regime ≤ 1) ∧
    (0 ≤ (calculateCoherence st f regime strategies).temporal ∧
      (calculateCoherence st f regime strategies).temporal ≤ 1) ∧
    (0 ≤ (calculateCoherence st f regime strategies).fractal ∧
      (calculateCoherence st f regime strategies).fractal ≤ 1) ∧
    (0 ≤ (calculateCoherence st f regime strategies).convergence ∧
      (calculateCoherence st f regime strategies).convergence ≤ 1) ∧
    |(calculateCoherence st f regime strategies).total -
      ((3/10) * (calculateCoherence st f regime strategies).structural +
        (25/100) * (calculateCoherence st f regime strategies).regime +
        (2/10) * (calculateCoherence st f regime strategies).temporal +
        (15/100) * (calculateCoherence st f regime strategies).fractal +
        (1/10) * (calculateCoherence st f regime strategies).convergence)| ≤
      1/1000000000 ∧
    (calculateCoherence st f regime strategies).confidence =
      sigmoid (2 * (calculateCoherence st f regime strategies).total - 1) := by
  obtain ⟨hs1, hs2⟩ := structuralConsistency_mem f
  obtain ⟨hr1, hr2⟩ := regimeAlignment_mem regime strategies
  obtain ⟨ht1, ht2⟩ := temporal_mem st
  obtain ⟨hf1, hf2⟩ := fractal_mem st f
  obtain ⟨hc1, hc2⟩ := convergence_mem strategies
  unfold calculateCoherence
  dsimp only
  refine ⟨⟨?_, ?_⟩, ⟨?_, ?_⟩, ⟨ht1, ht2⟩, ⟨hf1, hf2⟩, ⟨?_, ?_⟩, ?_, ?_⟩
  · exact_mod_cast hs1
  · exact_mod_cast hs2
  · exact_mod_cast hr1
  · exact_mod_cast hr2
  · exact_mod_cast hc1
  · exact_mod_cast hc2
  · rw [sub_self, abs_zero]
    norm_num
  · congr 1
    ring

end Omni
